import Mathlib

set_option maxHeartbeats 1000000

/-!
Shallow embedding of the QUICHE outgoing packet assembly core
(`quic/core/quic_packet_creator.cc`) and of the version predicates it uses.

The packet creator itself is embedded from the source file.  External
collaborators that live outside the covered sources (the framer's sizing and
building routines, the AEAD encrypter, the session delegate and the random
source) are represented as an explicit environment of pure functions, matching
the specification's treatment of them as external interfaces.  Small helpers of
the repository that are not among the covered sources (`QuicUtils`,
`QuicPacketNumber`, `QuicDataWriter::GetVarInt62Len`) are modelled from the
specification, as marked on each such definition.
-/

namespace QuichePacketCreator

/-- Encryption levels, ordered `INITIAL < HANDSHAKE < ZERO_RTT < FORWARD_SECURE`. -/
inductive EncryptionLevel where
  | initial
  | handshake
  | zeroRtt
  | forwardSecure
deriving DecidableEq, Repr

/-- The crypto handshake protocols that can be used with QUIC
(`quic_versions.h`). -/
inductive HandshakeProtocol where
  | quicCrypto
  | tls13
deriving DecidableEq, Repr

/-- A QUIC version as the packet creator observes it.  `handshakeProtocol` comes
from `ParsedQuicVersion` in `quic_versions.h`.  The remaining fields are the
version predicates consulted by `quic_packet_creator.cc`
(`HasHeaderProtection`, `QuicVersionUsesCryptoFrames`,
`VersionHasIetfQuicFrames`); the latter two are transport-version predicates in
`quic_versions.h`, and `HasHeaderProtection` is modelled as a per-version
attribute since its definition is outside the covered sources. -/
structure ParsedQuicVersion where
  handshakeProtocol : HandshakeProtocol
  hasHeaderProtection : Bool
  usesCryptoFrames : Bool
  hasIetfQuicFrames : Bool
deriving DecidableEq, Repr

/-- Modelled from the spec: the AEAD authentication tag is "12 or 16 bytes
depending on version" — 16 bytes for the IETF TLS 1.3 AEADs and 12 bytes for
Google QUIC crypto's AEADs (also stated in the comment inside
`QuicPacketCreator::MinPlaintextPacketSize`). -/
def aeadTagBytes (v : ParsedQuicVersion) : Nat :=
  match v.handshakeProtocol with
  | HandshakeProtocol.tls13 => 16
  | HandshakeProtocol.quicCrypto => 12

/-- `QuicPacketCreator::MinPlaintextPacketSize` (quic_packet_creator.cc):
returns 0 when the version has no header protection, and otherwise always 7. -/
def minPlaintextPacketSize (v : ParsedQuicVersion) : Nat :=
  if !v.hasHeaderProtection then 0 else 7

/-- The value the specification's words prescribe for
`MinPlaintextPacketSize`: 7 for versions using a 12-byte tag and 3 for
versions with a 16-byte tag (0 without header protection).  Written from the
spec sentence for comparison against the source definition above. -/
def spec_minPlaintextPacketSize (v : ParsedQuicVersion) : Nat :=
  if !v.hasHeaderProtection then 0
  else if aeadTagBytes v = 16 then 3 else 7

/-- Modelled from the spec: header protection samples 16 bytes of ciphertext
starting 4 bytes after the start of the packet number; with a worst-case
1-byte packet number and a tag of `aeadTagBytes v`, at least
`19 - aeadTagBytes v` plaintext bytes are needed. -/
def minSamplingPlaintext (v : ParsedQuicVersion) : Nat :=
  19 - aeadTagBytes v

/-- Modelled from the spec: in versions that do not use CRYPTO frames, crypto
handshake data travels on the dedicated crypto stream (stream id 1); versions
using CRYPTO frames have no crypto stream id (`QuicUtils::IsCryptoStreamId`,
outside the covered sources). -/
def isCryptoStreamId (v : ParsedQuicVersion) (id : Nat) : Bool :=
  !v.usesCryptoFrames && id == 1

/-- Modelled from the spec: IETF QUIC varint length-of-length — 1/2/4/8 bytes
for 6/14/30/62-bit values (`QuicDataWriter::GetVarInt62Len`, outside the
covered sources); 0 for values that do not fit in 62 bits. -/
def getVarInt62Len (n : Nat) : Nat :=
  if n < 2 ^ 6 then 1
  else if n < 2 ^ 14 then 2
  else if n < 2 ^ 30 then 4
  else if n < 2 ^ 62 then 8
  else 0

/-- `kQuicStreamPayloadLengthSize` (quic_constants.h): the explicit 2-byte
length field of a pre-IETF stream frame, documented by the spec as "a fixed 2
bytes for pre-IETF stream frames". -/
def kQuicStreamPayloadLengthSize : Nat := 2

/-- The queued-frame variants the embedded operations inspect.  `padding`
carries the signed `num_padding_bytes` of `QuicPaddingFrame` (−1 requests full
padding).  `rstStream` and `windowUpdate` stand for ordinary retransmittable
control frames whose payload the packet creator never inspects. -/
inductive QuicFrame where
  | stream (streamId : Nat) (offset : Nat) (dataLength : Nat) (fin : Bool)
  | crypto (level : EncryptionLevel) (offset : Nat) (dataLength : Nat)
  | ack (largestAcked : Nat)
  | padding (numPaddingBytes : Int)
  | mtuDiscovery
  | ping
  | connectionClose
  | rstStream
  | windowUpdate
  | message (messageLength : Nat)
  | stopWaiting
  | ackFrequency
deriving DecidableEq, Repr

/-- Modelled from the spec: the retransmittable/ephemeral classification bit
(`QuicUtils::IsRetransmittableFrame`, outside the covered sources): ACK,
padding, stop-waiting and MTU-discovery frames are ephemeral, all other frame
kinds are retransmittable. -/
def isRetransmittableFrame (f : QuicFrame) : Bool :=
  match f with
  | QuicFrame.ack _ => false
  | QuicFrame.padding _ => false
  | QuicFrame.stopWaiting => false
  | QuicFrame.mtuDiscovery => false
  | _ => true

/-- Modelled from the spec: a crypto-handshake frame is a CRYPTO frame (in
versions that use them) or a stream frame on the crypto stream
(`QuicUtils::IsHandshakeFrame`, outside the covered sources). -/
def isHandshakeFrame (v : ParsedQuicVersion) (f : QuicFrame) : Bool :=
  match f with
  | QuicFrame.crypto _ _ _ => v.usesCryptoFrames
  | QuicFrame.stream sid _ _ _ => isCryptoStreamId v sid
  | _ => false

/-- Is the frame a STREAM frame on a stream other than the crypto stream?
This is the guard of the unencrypted-stream-data check in
`QuicPacketCreator::AddFrame`. -/
def isNonCryptoStreamFrame (v : ParsedQuicVersion) (f : QuicFrame) : Bool :=
  match f with
  | QuicFrame.stream sid _ _ _ => !isCryptoStreamId v sid
  | _ => false

/-- `QuicPacketCreator::ExpansionOnNewFrameWithLastFrame`: the number of bytes
by which the committed size grows when `lastFrame` ceases to be the last frame
in the packet. -/
def expansionOnNewFrameWithLastFrame (v : ParsedQuicVersion) (lastFrame : QuicFrame) : Nat :=
  match lastFrame with
  | QuicFrame.message len => getVarInt62Len len
  | QuicFrame.stream _ _ dataLength _ =>
      if v.hasIetfQuicFrames then getVarInt62Len dataLength
      else kQuicStreamPayloadLengthSize
  | _ => 0

/-- The packet fates (`SerializedPacketFate` in quic_types.h). -/
inductive SerializedPacketFate where
  | sendToWriter
  | coalesce
  | buffer
  | legacyVersionEncapsulate
  | discard
deriving DecidableEq, Repr

/-- Transmission types, to the granularity the packet creator distinguishes. -/
inductive TransmissionType where
  | notRetransmission
  | lossRetransmission
  | probingRetransmission
  | ptoRetransmission
deriving DecidableEq, Repr

/-- The unrecoverable error codes the packet creator reports. -/
inductive QuicErrorCode where
  | failedToSerializePacket
  | attemptToSendUnencryptedStreamData
  | cryptoChloTooLarge
deriving DecidableEq, Repr

/-- The data of a `SerializedPacket` handed to the delegate, to the granularity
the claims need. -/
structure SerializedPacketInfo where
  packetNumber : Nat
  encryptionLevel : EncryptionLevel
  retransmittableFrames : List QuicFrame
  nonretransmittableFrames : List QuicFrame
  encryptedLength : Nat
deriving DecidableEq, Repr

/-- Observable calls made to the session delegate during an operation. -/
inductive Event where
  | onSerializedPacket (info : SerializedPacketInfo)
  | onUnrecoverableError (code : QuicErrorCode)
deriving DecidableEq, Repr

/-- Is this event a `QUIC_FAILED_TO_SERIALIZE_PACKET` unrecoverable-error
call? -/
def isFailedToSerializeEvent : Event → Bool
  | Event.onUnrecoverableError QuicErrorCode.failedToSerializePacket => true
  | _ => false

/-- Is this event an `OnSerializedPacket` delivery to the delegate? -/
def isPacketEmissionEvent : Event → Bool
  | Event.onSerializedPacket _ => true
  | _ => false

/-- The mutable state of `QuicPacketCreator` (the fields the embedded
operations read or write).  `packetNumber` is `packet_.packet_number`, with
`none` for an uninitialized `QuicPacketNumber`; `encryptedBuffer` records
whether `packet_.encrypted_buffer` is non-null. -/
structure CreatorState where
  queuedFrames : List QuicFrame
  retransmittableFrames : List QuicFrame
  nonretransmittableFrames : List QuicFrame
  packetSize : Nat
  packetNumber : Option Nat
  encryptionLevel : EncryptionLevel
  maxPacketLength : Nat
  maxPlaintextSize : Nat
  latchedHardMaxPacketLength : Nat
  pendingPaddingBytes : Nat
  needsFullPadding : Bool
  hasAck : Bool
  hasStopWaiting : Bool
  hasCryptoHandshake : Bool
  hasAckFrequency : Bool
  hasMessage : Bool
  largestAcked : Option Nat
  transmissionType : TransmissionType
  nextTransmissionType : TransmissionType
  encryptedBuffer : Bool
  encryptedLength : Nat
  fate : SerializedPacketFate
  maxDatagramFrameSize : Nat
deriving DecidableEq, Repr

/-- The environment of external collaborators: the framer's sizing and
building functions, the AEAD primitive of `QuicFramer::EncryptInPlace`, and
the session delegate's responses.  All are pure functions of their visible
arguments; an encrypter/builder result of 0 signals failure, exactly as in the
sources. -/
structure Env where
  version : ParsedQuicVersion
  firstSendingPacketNumber : Nat
  packetHeaderSize : EncryptionLevel → Nat
  getMaxPlaintextSize : Nat → Nat
  framerSerializedFrameLength : QuicFrame → Nat → Bool → Nat
  hasEncrypterOfEncryptionLevel : EncryptionLevel → Bool
  buildDataPacket : List QuicFrame → Nat → EncryptionLevel → Nat
  encryptInPlace : EncryptionLevel → Nat → Nat → Nat
  shouldGeneratePacket : Bool → Bool → Bool
  getSerializedPacketFate : Bool → EncryptionLevel → SerializedPacketFate
  bundledAckFrames : List QuicFrame

/-- `QuicPacketCreator::PacketHeaderSize`, abstracted over the framer's
`GetPacketHeaderSize`: the header size depends on the current encryption level
(version flag, nonce, long-header lengths, retry token). -/
def headerSize (env : Env) (s : CreatorState) : Nat :=
  env.packetHeaderSize s.encryptionLevel

/-- `QuicPacketCreator::PacketSize`. -/
def packetSizeOf (env : Env) (s : CreatorState) : Nat :=
  if s.queuedFrames = [] then headerSize env s else s.packetSize

/-- `QuicPacketCreator::ExpansionOnNewFrame`. -/
def expansionOnNewFrame (env : Env) (s : CreatorState) : Nat :=
  match s.queuedFrames.getLast? with
  | none => 0
  | some lastFrame => expansionOnNewFrameWithLastFrame env.version lastFrame

/-- `QuicPacketCreator::BytesFree`. -/
def bytesFree (env : Env) (s : CreatorState) : Nat :=
  s.maxPlaintextSize -
    min s.maxPlaintextSize (packetSizeOf env s + expansionOnNewFrame env s)

/-- `QuicPacketCreator::SetMaxPacketLength` (the DCHECK that no frames are
queued is a debug assertion). -/
def setMaxPacketLength (env : Env) (s : CreatorState) (length : Nat) : CreatorState :=
  if length = s.maxPacketLength then s
  else { s with maxPacketLength := length,
                maxPlaintextSize := env.getMaxPlaintextSize length }

/-- `QuicPacketCreator::RemoveSoftMaxPacketLength`; returns the new state and
whether a soft limit was removed. -/
def removeSoftMaxPacketLength (env : Env) (s : CreatorState) : CreatorState × Bool :=
  if s.latchedHardMaxPacketLength = 0 then (s, false)
  else if s.queuedFrames ≠ [] then (s, false)
  else
    let s' := setMaxPacketLength env s s.latchedHardMaxPacketLength
    ({ s' with latchedHardMaxPacketLength := 0 }, true)

/-- `QuicPacketCreator::SetMaxDatagramFrameSize`: the bound is clamped to
`min(max QuicPacketLength, max size_t) = min(2^16 − 1, 2^64 − 1)`. -/
def setMaxDatagramFrameSize (s : CreatorState) (maxDatagramFrameSize : Nat) : CreatorState :=
  let upperBound : Nat := min (2 ^ 16 - 1) (2 ^ 64 - 1)
  let v := if maxDatagramFrameSize > upperBound then upperBound else maxDatagramFrameSize
  { s with maxDatagramFrameSize := v }

/-- `QuicPacketCreator::AttemptingToSendUnencryptedStreamData`, as a pure
predicate on the current encryption level: true (and an unrecoverable error is
reported) exactly when the level is neither 0-RTT nor forward-secure. -/
def attemptingToSendUnencryptedStreamData (s : CreatorState) : Bool :=
  match s.encryptionLevel with
  | EncryptionLevel.zeroRtt => false
  | EncryptionLevel.forwardSecure => false
  | _ => true

/-- `QuicPacketCreator::GetSerializedFrameLength`: the framer's length,
corrected for the minimum-plaintext requirement of header protection. -/
def getSerializedFrameLength (env : Env) (s : CreatorState) (frame : QuicFrame) : Nat :=
  let l := env.framerSerializedFrameLength frame (bytesFree env s) (s.queuedFrames = [])
  if env.version.hasHeaderProtection = false ∨ l = 0 then l
  else
    let frameBytes := packetSizeOf env s - headerSize env s + expansionOnNewFrame env s + l
    if minPlaintextPacketSize env.version ≤ frameBytes then l
    else if bytesFree env s < l then 0
    else
      let free' := bytesFree env s - l
      let extraBytesNeeded :=
        max (1 + expansionOnNewFrameWithLastFrame env.version frame)
            (minPlaintextPacketSize env.version - frameBytes)
      if free' < extraBytesNeeded then 0 else l

/-- The update `MaybeCoalesceStreamFrame` applies to the back of
`packet_.retransmittable_frames`: the trailing stream frame takes the merged
length and the new fin flag. -/
def coalesceBack (l : List QuicFrame) (newLen : Nat) (fin : Bool) : List QuicFrame :=
  match l.getLast? with
  | some (QuicFrame.stream rsid roff _ _) =>
      l.dropLast ++ [QuicFrame.stream rsid roff newLen fin]
  | _ => l

/-- `QuicPacketCreator::MaybeCoalesceStreamFrame`: `none` when the incoming
stream frame cannot extend the trailing queued frame. -/
def maybeCoalesceStreamFrame (env : Env) (s : CreatorState)
    (sid off len : Nat) (fin : Bool) : Option CreatorState :=
  match s.queuedFrames.getLast? with
  | some (QuicFrame.stream csid coff clen _) =>
      if csid = sid ∧ coff + clen = off ∧ len ≤ bytesFree env s then
        some { s with
          queuedFrames :=
            s.queuedFrames.dropLast ++ [QuicFrame.stream csid coff (clen + len) fin],
          retransmittableFrames := coalesceBack s.retransmittableFrames (clen + len) fin,
          packetSize := s.packetSize + len }
      else none
  | _ => none

/-- Dispatch of `MaybeCoalesceStreamFrame` on the frame kind (the source only
calls it for STREAM frames). -/
def tryCoalesce (env : Env) (s : CreatorState) (frame : QuicFrame) : Option CreatorState :=
  match frame with
  | QuicFrame.stream sid off len fin => maybeCoalesceStreamFrame env s sid off len fin
  | _ => none

/-- Result of the non-flushing part of `AddFrame`. -/
inductive AddOutcome where
  | added
  | refusedUnencrypted
  | noRoom
deriving DecidableEq, Repr

/-- The state computation of `QuicPacketCreator::AddFrame` after the
unencrypted-stream-data check, up to (but not including) the
`FlushCurrentPacket()` performed when the frame does not fit; the `noRoom`
outcome marks that remaining step, which `addFrame` below performs.  (Splitting
here breaks the source's bounded recursion `AddFrame → FlushCurrentPacket →
SerializePacket → MaybeAddPadding → AddFrame`; the padding `AddFrame` inside
serialization can never take the flush branch except in states the source
itself flags as bugs.) -/
def addFrameBody (env : Env) (s : CreatorState) (frame : QuicFrame)
    (tt : TransmissionType) : CreatorState × AddOutcome :=
  match tryCoalesce env s frame with
  | some s1 => (s1, AddOutcome.added)
  | none =>
      let l0 := getSerializedFrameLength env s frame
      let step :=
        if l0 = 0 then
          let r := removeSoftMaxPacketLength env s
          if r.2 then (r.1, getSerializedFrameLength env r.1 frame) else (r.1, 0)
        else (s, l0)
      let s1 := step.1
      let frameLen := step.2
      if frameLen = 0 then (s1, AddOutcome.noRoom)
      else
        let s2 := if s1.queuedFrames = [] then
                    { s1 with packetSize := headerSize env s1 }
                  else s1
        let s3 := { s2 with
          packetSize := s2.packetSize + expansionOnNewFrame env s2 + frameLen }
        let s4 :=
          if isRetransmittableFrame frame then
            { s3 with
              retransmittableFrames := s3.retransmittableFrames ++ [frame],
              queuedFrames := s3.queuedFrames ++ [frame],
              hasCryptoHandshake :=
                s3.hasCryptoHandshake || isHandshakeFrame env.version frame }
          else
            let stored :=
              match frame with
              | QuicFrame.padding n =>
                  if n = -1 then QuicFrame.padding (Int.ofNat frameLen) else frame
              | _ => frame
            { s3 with
              nonretransmittableFrames := s3.nonretransmittableFrames ++ [stored],
              queuedFrames := s3.queuedFrames ++ [frame] }
        let s5 :=
          match frame with
          | QuicFrame.ack la => { s4 with hasAck := true, largestAcked := some la }
          | QuicFrame.stopWaiting => { s4 with hasStopWaiting := true }
          | QuicFrame.ackFrequency => { s4 with hasAckFrequency := true }
          | QuicFrame.message _ => { s4 with hasMessage := true }
          | _ => s4
        let s6 := if isRetransmittableFrame frame then
                    { s5 with transmissionType := tt }
                  else s5
        (s6, AddOutcome.added)

/-- The body of `QuicPacketCreator::AddFrame` up to (but not including) the
`FlushCurrentPacket` performed when the frame does not fit: the
unencrypted-stream-data refusal in front of `addFrameBody`. -/
def addFrameInner (env : Env) (s : CreatorState) (frame : QuicFrame)
    (tt : TransmissionType) : CreatorState × List Event × AddOutcome :=
  if isNonCryptoStreamFrame env.version frame &&
      attemptingToSendUnencryptedStreamData s then
    (s, [Event.onUnrecoverableError QuicErrorCode.attemptToSendUnencryptedStreamData],
      AddOutcome.refusedUnencrypted)
  else
    ((addFrameBody env s frame tt).1, [], (addFrameBody env s frame tt).2)

/-- `QuicPacketCreator::MaybeAddExtraPaddingForHeaderProtection`. -/
def maybeAddExtraPaddingForHeaderProtection (env : Env) (s : CreatorState) : CreatorState :=
  if env.version.hasHeaderProtection = false ∨ s.needsFullPadding = true then s
  else
    let frameBytes := packetSizeOf env s - headerSize env s
    if minPlaintextPacketSize env.version ≤ frameBytes then s
    else
      let minHeaderProtectionPadding :=
        max (1 + expansionOnNewFrame env s)
            (minPlaintextPacketSize env.version - frameBytes) -
          expansionOnNewFrame env s
      { s with pendingPaddingBytes := max s.pendingPaddingBytes minHeaderProtectionPadding }

/-- `QuicPacketCreator::MaybeAddPadding`.  (The `int16_t` narrowing in
`std::min<int16_t>` is not modelled; the operands never exceed the int16 range
in the states the source reaches.) -/
def maybeAddPadding (env : Env) (s : CreatorState) : CreatorState × List Event :=
  if bytesFree env s = 0 then (s, [])
  else
    let s := if s.transmissionType = TransmissionType.probingRetransmission then
               { s with needsFullPadding := true }
             else s
    let s := if s.fate = SerializedPacketFate.coalesce ∨
                 s.fate = SerializedPacketFate.legacyVersionEncapsulate then
               { s with needsFullPadding := false }
             else s
    let s := maybeAddExtraPaddingForHeaderProtection env s
    if s.needsFullPadding = false ∧ s.pendingPaddingBytes = 0 then (s, [])
    else
      let step :=
        if s.needsFullPadding then ((-1 : Int), s)
        else
          let pb := min s.pendingPaddingBytes (bytesFree env s)
          ((Int.ofNat pb), { s with pendingPaddingBytes := s.pendingPaddingBytes - pb })
      let r := addFrameInner env step.2 (QuicFrame.padding step.1) step.2.transmissionType
      (r.1, r.2.1)

/-- `QuicPacketCreator::NextSendingPacketNumber`. -/
def nextSendingPacketNumber (env : Env) (s : CreatorState) : Nat :=
  match s.packetNumber with
  | none => env.firstSendingPacketNumber
  | some n => n + 1

/-- `QuicPacketCreator::FillPacketHeader`, restricted to its effect on the
creator state: `packet_.packet_number = NextSendingPacketNumber()`.  (The
remaining header fields are read-only views of the state.  `QuicPacketNumber`
is outside the covered sources; following the spec's "monotonically increasing
62-bit integer, never reset", the increment is exact.) -/
def fillPacketHeader (env : Env) (s : CreatorState) : CreatorState :=
  { s with packetNumber := some (nextSendingPacketNumber env s) }

/-- `QuicPacketCreator::SerializePacket`.  Returns the new state, the delegate
calls made, and whether serialization succeeded.  The
`ScopedSerializationFailureHandler` always clears `queued_frames_` on exit and
reports `QUIC_FAILED_TO_SERIALIZE_PACKET` exactly when no encrypted buffer was
produced; the entry check for a non-empty encrypted buffer happens before the
handler is constructed and therefore does not clear the queue. -/
def serializePacket (env : Env) (s : CreatorState) : CreatorState × List Event × Bool :=
  if s.encryptedBuffer then
    (s, [Event.onUnrecoverableError QuicErrorCode.failedToSerializePacket], false)
  else
    let s := fillPacketHeader env s
    let pn := s.packetNumber.getD 0
    let isMtuDiscovery := s.queuedFrames.contains QuicFrame.mtuDiscovery
    let s := { s with fate := env.getSerializedPacketFate isMtuDiscovery s.encryptionLevel }
    let padded := maybeAddPadding env s
    let s := padded.1
    let evs := padded.2
    if env.hasEncrypterOfEncryptionLevel s.encryptionLevel = false then
      ({ s with queuedFrames := [] },
        evs ++ [Event.onUnrecoverableError QuicErrorCode.failedToSerializePacket], false)
    else
      let length := env.buildDataPacket s.queuedFrames s.packetSize s.encryptionLevel
      if length = 0 then
        ({ s with queuedFrames := [] },
          evs ++ [Event.onUnrecoverableError QuicErrorCode.failedToSerializePacket], false)
      else
        let encryptedLength := env.encryptInPlace s.encryptionLevel pn length
        if encryptedLength = 0 then
          ({ s with queuedFrames := [] },
            evs ++ [Event.onUnrecoverableError QuicErrorCode.failedToSerializePacket], false)
        else
          ({ s with packetSize := 0, encryptedBuffer := true,
                    encryptedLength := encryptedLength, queuedFrames := [] },
            evs, true)

/-- `QuicPacketCreator::ClearPacket`. -/
def clearPacket (s : CreatorState) : CreatorState :=
  { s with hasAck := false, hasStopWaiting := false, hasCryptoHandshake := false,
           transmissionType := TransmissionType.notRetransmission,
           encryptedBuffer := false, encryptedLength := 0,
           hasAckFrequency := false, hasMessage := false,
           fate := SerializedPacketFate.sendToWriter,
           largestAcked := none, needsFullPadding := false }

/-- `QuicPacketCreator::OnSerializedPacket`: move the packet out, clear the
creator's packet state, drop any soft limit, then hand the packet to the
delegate. -/
def onSerializedPacketStep (env : Env) (s : CreatorState) : CreatorState × List Event :=
  let info : SerializedPacketInfo :=
    { packetNumber := s.packetNumber.getD 0,
      encryptionLevel := s.encryptionLevel,
      retransmittableFrames := s.retransmittableFrames,
      nonretransmittableFrames := s.nonretransmittableFrames,
      encryptedLength := s.encryptedLength }
  let s := { s with retransmittableFrames := [], nonretransmittableFrames := [] }
  let s := clearPacket s
  let s := (removeSoftMaxPacketLength env s).1
  (s, [Event.onSerializedPacket info])

/-- `QuicPacketCreator::FlushCurrentPacket`. -/
def flushCurrentPacket (env : Env) (s : CreatorState) : CreatorState × List Event :=
  if s.queuedFrames = [] ∧ s.pendingPaddingBytes = 0 then (s, [])
  else
    let r := serializePacket env s
    if r.2.2 then
      let r2 := onSerializedPacketStep env r.1
      (r2.1, r.2.1 ++ r2.2)
    else (r.1, r.2.1)

/-- `QuicPacketCreator::AddFrame`: the inner step, plus the
`FlushCurrentPacket()` performed when the current open packet has no room. -/
def addFrame (env : Env) (s : CreatorState) (frame : QuicFrame)
    (tt : TransmissionType) : CreatorState × List Event × Bool :=
  match addFrameInner env s frame tt with
  | (s', evs, AddOutcome.added) => (s', evs, true)
  | (s', evs, AddOutcome.refusedUnencrypted) => (s', evs, false)
  | (s', evs, AddOutcome.noRoom) =>
      let r := flushCurrentPacket env s'
      (r.1, evs ++ r.2, false)

/-- `QuicPacketCreator::AddPaddedSavedFrame`. -/
def addPaddedSavedFrame (env : Env) (s : CreatorState) (frame : QuicFrame)
    (tt : TransmissionType) : CreatorState × List Event × Bool :=
  match addFrame env s frame tt with
  | (s', evs, true) => ({ s' with needsFullPadding := true }, evs, true)
  | (s', evs, false) => (s', evs, false)

/-- The loop of `QuicPacketCreator::FlushAckFrame`. -/
def flushAckFrameLoop (env : Env) (s : CreatorState) (frames : List QuicFrame) :
    CreatorState × List Event × Bool :=
  match frames with
  | [] => (s, [], true)
  | f :: rest =>
    if s.queuedFrames ≠ [] then
      match addFrame env s f s.nextTransmissionType with
      | (s', evs, true) =>
          let r := flushAckFrameLoop env s' rest
          (r.1, evs ++ r.2.1, r.2.2)
      | (s', evs, false) =>
          if env.shouldGeneratePacket false false = false then (s', evs, false)
          else
            let a := addFrame env s' f s'.nextTransmissionType
            let r := flushAckFrameLoop env a.1 rest
            (r.1, evs ++ a.2.1 ++ r.2.1, r.2.2)
    else
      if env.shouldGeneratePacket false false = false then (s, [], false)
      else
        let a := addFrame env s f s.nextTransmissionType
        let r := flushAckFrameLoop env a.1 rest
        (r.1, a.2.1 ++ r.2.1, r.2.2)

/-- `QuicPacketCreator::MaybeBundleAckOpportunistically`. -/
def maybeBundleAckOpportunistically (env : Env) (s : CreatorState) :
    CreatorState × List Event :=
  if s.hasAck then (s, [])
  else if env.shouldGeneratePacket false false = false then (s, [])
  else
    let r := flushAckFrameLoop env s env.bundledAckFrames
    (r.1, r.2.1)

/-- `QuicPacketCreator::ConsumeRetransmittableControlFrame`.  The delegate's
`ShouldGeneratePacket(HAS_RETRANSMITTABLE_DATA, NOT_HANDSHAKE)` is
`shouldGeneratePacket true false`. -/
def consumeRetransmittableControlFrame (env : Env) (s : CreatorState)
    (frame : QuicFrame) : CreatorState × List Event × Bool :=
  let b := maybeBundleAckOpportunistically env s
  let s := b.1
  let evs := b.2
  let rest := fun (s : CreatorState) (evs : List Event) =>
    if frame ≠ QuicFrame.ping ∧ frame ≠ QuicFrame.connectionClose ∧
        env.shouldGeneratePacket true false = false then
      (s, evs, false)
    else
      let a := addFrame env s frame s.nextTransmissionType
      (a.1, evs ++ a.2.1, a.2.2)
  if s.queuedFrames ≠ [] then
    match addFrame env s frame s.nextTransmissionType with
    | (s', evs', true) => (s', evs ++ evs', true)
    | (s', evs', false) => rest s' (evs ++ evs')
  else rest s evs

/-- `QuicPacketCreator::GenerateMtuDiscoveryPacket`. -/
def generateMtuDiscoveryPacket (env : Env) (s : CreatorState) (targetMtu : Nat) :
    CreatorState × List Event :=
  if s.queuedFrames ≠ [] then (s, [])
  else
    let currentMtu := s.maxPacketLength
    let s := setMaxPacketLength env s targetMtu
    let a := addPaddedSavedFrame env s QuicFrame.mtuDiscovery s.nextTransmissionType
    let f := flushCurrentPacket env a.1
    let s := setMaxPacketLength env f.1 currentMtu
    (s, a.2.1 ++ f.2)

/-- `QuicPacketCreator::SkipNPacketNumbers`.  `QuicPacketNumber` is outside
the covered sources; its wrapping uint64 arithmetic is modelled with mod
`2^64`, matching the source's own wrap check
`packet_number > packet_number + count`.  (`UpdatePacketNumberLength` only
adjusts the wire length of the number and is not modelled.) -/
def skipNPacketNumbers (s : CreatorState) (count : Nat) : CreatorState :=
  if s.queuedFrames ≠ [] then s
  else
    match s.packetNumber with
    | none => s
    | some pn =>
        if (pn + count) % 2 ^ 64 < pn then s
        else { s with packetNumber := some ((pn + count) % 2 ^ 64) }

/-- Add a list of frames by successive `AddFrame` calls, stopping at the first
failure (the loops of `ReserializeInitialPacketInCoalescedPacket`). -/
def addAllFrames (env : Env) (s : CreatorState) (frames : List QuicFrame)
    (tt : TransmissionType) : CreatorState × List Event × Bool :=
  match frames with
  | [] => (s, [], true)
  | f :: rest =>
    match addFrame env s f tt with
    | (s', evs, true) =>
        let r := addAllFrames env s' rest tt
        (r.1, evs ++ r.2.1, r.2.2)
    | (s', evs, false) => (s', evs, false)

/-- The body of `ReserializeInitialPacketInCoalescedPacket` between the
construction and the destruction of the `ScopedPacketContextSwitcher`. -/
def reserializeCore (env : Env) (s : CreatorState) (pkt : SerializedPacketInfo)
    (paddingSize : Nat) (tt : TransmissionType) : CreatorState × List Event × Nat :=
  let a1 := addAllFrames env s pkt.nonretransmittableFrames tt
  if a1.2.2 = false then (a1.1, a1.2.1, 0)
  else
    let a2 := addAllFrames env a1.1 pkt.retransmittableFrames tt
    if a2.2.2 = false then (a2.1, a1.2.1 ++ a2.2.1, 0)
    else
      let s2 := a2.1
      let padStep :=
        if 0 < paddingSize then
          addFrame env s2 (QuicFrame.padding (Int.ofNat paddingSize)) tt
        else (s2, [], true)
      if padStep.2.2 = false then
        (padStep.1, a1.2.1 ++ a2.2.1 ++ padStep.2.1, 0)
      else
        let ser := serializePacket env padStep.1
        if ser.2.2 = false then (ser.1, a1.2.1 ++ a2.2.1 ++ padStep.2.1 ++ ser.2.1, 0)
        else
          let s3 := ser.1
          let encryptedLength := s3.encryptedLength
          let s4 := clearPacket { s3 with retransmittableFrames := [],
                                          nonretransmittableFrames := [] }
          (s4, a1.2.1 ++ a2.2.1 ++ padStep.2.1 ++ ser.2.1, encryptedLength)

/-- `QuicPacketCreator::ReserializeInitialPacketInCoalescedPacket`: the
`ScopedPacketContextSwitcher` sets the packet number to the original packet's
number minus one (serialization increments it back) and the encryption level to
the original packet's level, and unconditionally restores both on exit. -/
def reserializeInitialPacketInCoalescedPacket (env : Env) (s : CreatorState)
    (pkt : SerializedPacketInfo) (paddingSize : Nat) (tt : TransmissionType) :
    CreatorState × List Event × Nat :=
  let savedPacketNumber := s.packetNumber
  let savedLevel := s.encryptionLevel
  let entered := { s with packetNumber := some (pkt.packetNumber - 1),
                          encryptionLevel := pkt.encryptionLevel }
  let r := reserializeCore env entered pkt paddingSize tt
  ({ r.1 with packetNumber := savedPacketNumber, encryptionLevel := savedLevel },
    r.2.1, r.2.2)

/-- An operation in a packet-number trace: a header fill performed by a
serialization, or an explicit `SkipNPacketNumbers`. -/
inductive PacketNumberOp where
  | fill
  | skip (count : Nat)
deriving DecidableEq, Repr

/-- Run a trace of header fills and skips, collecting the packet number each
fill assigns (the number the emitted packet carries). -/
def runPacketNumberOps (env : Env) : List PacketNumberOp → CreatorState → List Nat →
    List Nat × CreatorState
  | [], s, acc => (acc, s)
  | PacketNumberOp.fill :: rest, s, acc =>
      let s' := fillPacketHeader env s
      runPacketNumberOps env rest s' (acc ++ [s'.packetNumber.getD 0])
  | PacketNumberOp.skip n :: rest, s, acc =>
      runPacketNumberOps env rest (skipNPacketNumbers s n) acc


/-- A Google QUIC version (QUIC crypto handshake, stream-1 crypto data, no
header protection, pre-IETF frames), as used for concrete evaluations. -/
def googleQuicVersion : ParsedQuicVersion :=
  { handshakeProtocol := HandshakeProtocol.quicCrypto,
    hasHeaderProtection := false,
    usesCryptoFrames := false,
    hasIetfQuicFrames := false }

/-- An IETF QUIC+TLS version: TLS 1.3 handshake (16-byte AEAD tags), header
protection, CRYPTO frames, IETF frames. -/
def tlsVersion : ParsedQuicVersion :=
  { handshakeProtocol := HandshakeProtocol.tls13,
    hasHeaderProtection := true,
    usesCryptoFrames := true,
    hasIetfQuicFrames := true }

/-- A freshly constructed creator: nothing queued, packet number uninitialized,
forward-secure level, 1350-byte max packet length with a 12-byte AEAD
overhead. -/
def baseState : CreatorState :=
  { queuedFrames := [], retransmittableFrames := [], nonretransmittableFrames := [],
    packetSize := 0, packetNumber := none,
    encryptionLevel := EncryptionLevel.forwardSecure,
    maxPacketLength := 1350, maxPlaintextSize := 1338,
    latchedHardMaxPacketLength := 0,
    pendingPaddingBytes := 0, needsFullPadding := false,
    hasAck := false, hasStopWaiting := false, hasCryptoHandshake := false,
    hasAckFrequency := false, hasMessage := false, largestAcked := none,
    transmissionType := TransmissionType.notRetransmission,
    nextTransmissionType := TransmissionType.notRetransmission,
    encryptedBuffer := false, encryptedLength := 0,
    fate := SerializedPacketFate.sendToWriter,
    maxDatagramFrameSize := 0 }

/-- A concrete environment for the Google QUIC version: 20-byte headers, a
12-byte AEAD tag, a framer that charges eight bytes of overhead per stream
frame, an always-willing delegate and an always-succeeding encrypter. -/
def envG : Env :=
  { version := googleQuicVersion,
    firstSendingPacketNumber := 1,
    packetHeaderSize := fun _ => 20,
    getMaxPlaintextSize := fun n => n - 12,
    framerSerializedFrameLength := fun f free _ =>
      match f with
      | QuicFrame.stream _ _ len _ => if len + 8 ≤ free then len + 8 else 0
      | QuicFrame.padding _ => free
      | QuicFrame.mtuDiscovery => if 1 ≤ free then 1 else 0
      | QuicFrame.ack _ => if 5 ≤ free then 5 else 0
      | _ => if 3 ≤ free then 3 else 0,
    hasEncrypterOfEncryptionLevel := fun _ => true,
    buildDataPacket := fun _ size _ => size,
    encryptInPlace := fun _ _ len => len + 12,
    shouldGeneratePacket := fun _ _ => true,
    getSerializedPacketFate := fun _ _ => SerializedPacketFate.sendToWriter,
    bundledAckFrames := [] }

/-- `envG` with an encrypter that has no key for any level: every
serialization fails at the encryption-key check. -/
def envNoKeys : Env :=
  { envG with hasEncrypterOfEncryptionLevel := fun _ => false }

/-- `envG` with a delegate that declines every packet and a framer that cannot
fit a retransmittable control frame: the fixture for the
`ConsumeRetransmittableControlFrame` no-room/declined scenario. -/
def envDeclineControl : Env :=
  { envG with
    shouldGeneratePacket := fun _ _ => false,
    framerSerializedFrameLength := fun f free _ =>
      match f with
      | QuicFrame.stream _ _ len _ => if len + 8 ≤ free then len + 8 else 0
      | QuicFrame.padding _ => free
      | _ => 0 }

/-- `envG` with a framer whose MTU-discovery frame costs one byte, whose full
padding consumes all free bytes, and whose packet builder always writes at
least one byte: the fixture for the MTU-discovery probe. -/
def envMtu : Env :=
  { envG with
    buildDataPacket := fun _ n _ => n + 1,
    framerSerializedFrameLength := fun f free _ =>
      match f with
      | QuicFrame.mtuDiscovery => 1
      | QuicFrame.padding _ => free
      | _ => 0 }

/-- A creator at the INITIAL level with an empty packet, as when a Google QUIC
client sends its first handshake bytes. -/
def initialLevelState : CreatorState :=
  { baseState with encryptionLevel := EncryptionLevel.initial }

/-- A creator with an open packet holding one 10-byte stream frame. -/
def openPacketState : CreatorState :=
  { baseState with
    queuedFrames := [QuicFrame.stream 4 0 10 false],
    retransmittableFrames := [QuicFrame.stream 4 0 10 false],
    packetSize := 38,
    packetNumber := some 5,
    hasAck := true }

/-! ### Helper lemmas -/

/-- A frame that is not a non-crypto STREAM frame is added without any
delegate call by the inner step of `AddFrame`. -/
theorem addFrameInner_events_nil (env : Env) (s : CreatorState) (f : QuicFrame)
    (tt : TransmissionType) (h : isNonCryptoStreamFrame env.version f = false) :
    (addFrameInner env s f tt).2.1 = [] := by
  unfold addFrameInner
  rw [h]
  simp only [Bool.false_and, Bool.false_eq_true, if_false]

/-- Specialization of the previous lemma to padding frames. -/
theorem addFrameInner_padding_events_nil (env : Env) (s : CreatorState) (n : Int)
    (tt : TransmissionType) :
    (addFrameInner env s (QuicFrame.padding n) tt).2.1 = [] :=
  addFrameInner_events_nil env s (QuicFrame.padding n) tt rfl

/-- `MaybeAddPadding` never calls the delegate (the padding `AddFrame` can
neither be refused nor flush). -/
theorem maybeAddPadding_events_nil (env : Env) (s : CreatorState) :
    (maybeAddPadding env s).2 = [] := by
  unfold maybeAddPadding
  simp only [apply_ite Prod.snd]
  simp only [addFrameInner_padding_events_nil, ite_self]

/-- Once the serialization entry check passes (no stale encrypted buffer), a
`SerializePacket` call either succeeds with no delegate call, or fails with
`queued_frames_` cleared and exactly one `QUIC_FAILED_TO_SERIALIZE_PACKET`
delegate call. -/
theorem serializePacket_cases (env : Env) (s : CreatorState)
    (hbuf : s.encryptedBuffer = false) :
    ((serializePacket env s).2.2 = true ∧ (serializePacket env s).2.1 = []) ∨
    ((serializePacket env s).2.2 = false ∧
      (serializePacket env s).1.queuedFrames = [] ∧
      (serializePacket env s).2.1 =
        [Event.onUnrecoverableError QuicErrorCode.failedToSerializePacket]) := by
  unfold serializePacket
  rw [hbuf]
  simp only [Bool.false_eq_true, if_false, maybeAddPadding_events_nil, List.nil_append]
  split
  · right
    exact ⟨rfl, rfl, rfl⟩
  · split
    · right
      exact ⟨rfl, rfl, rfl⟩
    · split
      · right
        exact ⟨rfl, rfl, rfl⟩
      · left
        exact ⟨rfl, rfl⟩

/-- `RemoveSoftMaxPacketLength` does nothing when no soft limit is latched. -/
theorem removeSoft_latched_zero (env : Env) (s : CreatorState)
    (h : s.latchedHardMaxPacketLength = 0) :
    removeSoftMaxPacketLength env s = (s, false) := by
  unfold removeSoftMaxPacketLength
  rw [if_pos h]

/-- `MaybeAddPadding` adds nothing when no padding is required. -/
theorem maybeAddPadding_noop (env : Env) (s : CreatorState)
    (hnfp : s.needsFullPadding = false) (hpend : s.pendingPaddingBytes = 0)
    (hhp : env.version.hasHeaderProtection = false)
    (htt : s.transmissionType ≠ TransmissionType.probingRetransmission)
    (hf1 : s.fate ≠ SerializedPacketFate.coalesce)
    (hf2 : s.fate ≠ SerializedPacketFate.legacyVersionEncapsulate) :
    maybeAddPadding env s = (s, []) := by
  unfold maybeAddPadding maybeAddExtraPaddingForHeaderProtection
  by_cases hbf : bytesFree env s = 0
  · rw [if_pos hbf]
  · simp [hbf, htt, hf1, hf2, hhp, hnfp, hpend]

/-- `SerializePacket` on a packet that needs no padding, with keys present and
a framer and encrypter that succeed: the explicit result state. -/
theorem serializePacket_success_noPadding (env : Env) (s : CreatorState)
    (hbuf : s.encryptedBuffer = false)
    (hnfp : s.needsFullPadding = false) (hpend : s.pendingPaddingBytes = 0)
    (hhp : env.version.hasHeaderProtection = false)
    (htt : s.transmissionType ≠ TransmissionType.probingRetransmission)
    (hfate : env.getSerializedPacketFate (s.queuedFrames.contains QuicFrame.mtuDiscovery)
      s.encryptionLevel = SerializedPacketFate.sendToWriter)
    (henc : env.hasEncrypterOfEncryptionLevel s.encryptionLevel = true)
    (hbuild : env.buildDataPacket s.queuedFrames s.packetSize s.encryptionLevel ≠ 0)
    (hencres : env.encryptInPlace s.encryptionLevel (nextSendingPacketNumber env s)
      (env.buildDataPacket s.queuedFrames s.packetSize s.encryptionLevel) ≠ 0) :
    serializePacket env s =
      ({ s with packetNumber := some (nextSendingPacketNumber env s),
                fate := SerializedPacketFate.sendToWriter,
                packetSize := 0, encryptedBuffer := true,
                encryptedLength := env.encryptInPlace s.encryptionLevel
                  (nextSendingPacketNumber env s)
                  (env.buildDataPacket s.queuedFrames s.packetSize s.encryptionLevel),
                queuedFrames := [] }, [], true) := by
  have hfate' : env.getSerializedPacketFate
      (decide (QuicFrame.mtuDiscovery ∈ s.queuedFrames)) s.encryptionLevel =
      SerializedPacketFate.sendToWriter := by
    simpa using hfate
  unfold serializePacket
  rw [hbuf]
  simp only [Bool.false_eq_true, if_false]
  rw [maybeAddPadding_noop]
  · simp [fillPacketHeader, henc, hbuild, hencres, hfate']
  all_goals simp [fillPacketHeader, hnfp, hpend, hhp, htt, hfate']

/-- `SetMaxPacketLength` on a consistent creator updates exactly the length
fields. -/
theorem setMaxPacketLength_fields (env : Env) (s : CreatorState) (l : Nat)
    (hcons : s.maxPlaintextSize = env.getMaxPlaintextSize s.maxPacketLength) :
    setMaxPacketLength env s l =
      { s with maxPacketLength := l, maxPlaintextSize := env.getMaxPlaintextSize l } := by
  unfold setMaxPacketLength
  split
  · next h =>
    subst h
    rw [← hcons]
  · rfl

/-- `FlushCurrentPacket` of a non-empty packet that needs no padding, with a
succeeding framer and encrypter: the packet is emitted to the delegate and the
creator is reset. -/
theorem flushCurrentPacket_success_noPadding (env : Env) (s : CreatorState)
    (hq : s.queuedFrames ≠ [])
    (hbuf : s.encryptedBuffer = false)
    (hnfp : s.needsFullPadding = false) (hpend : s.pendingPaddingBytes = 0)
    (hhp : env.version.hasHeaderProtection = false)
    (htt : s.transmissionType ≠ TransmissionType.probingRetransmission)
    (hfate : env.getSerializedPacketFate (s.queuedFrames.contains QuicFrame.mtuDiscovery)
      s.encryptionLevel = SerializedPacketFate.sendToWriter)
    (henc : env.hasEncrypterOfEncryptionLevel s.encryptionLevel = true)
    (hbuild : env.buildDataPacket s.queuedFrames s.packetSize s.encryptionLevel ≠ 0)
    (hencres : env.encryptInPlace s.encryptionLevel (nextSendingPacketNumber env s)
      (env.buildDataPacket s.queuedFrames s.packetSize s.encryptionLevel) ≠ 0)
    (hlatch : s.latchedHardMaxPacketLength = 0) :
    flushCurrentPacket env s =
      ({ s with queuedFrames := [], retransmittableFrames := [],
                nonretransmittableFrames := [], packetSize := 0,
                packetNumber := some (nextSendingPacketNumber env s),
                hasAck := false, hasStopWaiting := false, hasCryptoHandshake := false,
                transmissionType := TransmissionType.notRetransmission,
                encryptedBuffer := false, encryptedLength := 0,
                hasAckFrequency := false, hasMessage := false,
                fate := SerializedPacketFate.sendToWriter,
                largestAcked := none, needsFullPadding := false },
        [Event.onSerializedPacket
          { packetNumber := nextSendingPacketNumber env s,
            encryptionLevel := s.encryptionLevel,
            retransmittableFrames := s.retransmittableFrames,
            nonretransmittableFrames := s.nonretransmittableFrames,
            encryptedLength := env.encryptInPlace s.encryptionLevel
              (nextSendingPacketNumber env s)
              (env.buildDataPacket s.queuedFrames s.packetSize s.encryptionLevel) }]) := by
  unfold flushCurrentPacket
  rw [if_neg (by simp [hq])]
  rw [serializePacket_success_noPadding env s hbuf hnfp hpend hhp htt hfate henc hbuild
    hencres]
  simp [onSerializedPacketStep, clearPacket, removeSoft_latched_zero, hlatch]

/-- The inner step of `AddFrame` reports `noRoom` when the framer cannot fit
the frame and no soft limit can be dropped. -/
theorem addFrameBody_noRoom (env : Env) (s : CreatorState) (f : QuicFrame)
    (tt : TransmissionType)
    (hco : tryCoalesce env s f = none)
    (hlen : getSerializedFrameLength env s f = 0)
    (hlatch : s.latchedHardMaxPacketLength = 0) :
    addFrameBody env s f tt = (s, AddOutcome.noRoom) := by
  unfold addFrameBody
  rw [hco]
  simp [hlen, removeSoft_latched_zero env s hlatch]

/-- `AddFrame` on a frame that does not fit flushes the current packet and
returns false. -/
theorem addFrame_noRoom (env : Env) (s : CreatorState) (f : QuicFrame)
    (tt : TransmissionType)
    (hg : isNonCryptoStreamFrame env.version f = false)
    (hco : tryCoalesce env s f = none)
    (hlen : getSerializedFrameLength env s f = 0)
    (hlatch : s.latchedHardMaxPacketLength = 0) :
    addFrame env s f tt =
      ((flushCurrentPacket env s).1, (flushCurrentPacket env s).2, false) := by
  unfold addFrame addFrameInner
  rw [hg]
  simp [addFrameBody_noRoom env s f tt hco hlen hlatch]

/-- C1: whenever `SerializePacket` fails after the packet header was
constructed (the entry check passed, so the failure is a build or encryption
failure), the scoped failure handler clears `queued_frames_`, the delegate
receives exactly one `QUIC_FAILED_TO_SERIALIZE_PACKET` unrecoverable-error
call and no `OnSerializedPacket` call, and the surrounding
`FlushCurrentPacket` hands no `SerializedPacket` to the delegate for that
attempt. -/
theorem serialize_c1_failure (env : Env) (s : CreatorState)
    (hbuf : s.encryptedBuffer = false)
    (hfail : (serializePacket env s).2.2 = false)
    (hpending : ¬(s.queuedFrames = [] ∧ s.pendingPaddingBytes = 0)) :
    (serializePacket env s).1.queuedFrames = [] ∧
    (serializePacket env s).2.1.countP isFailedToSerializeEvent = 1 ∧
    (serializePacket env s).2.1.countP isPacketEmissionEvent = 0 ∧
    flushCurrentPacket env s = ((serializePacket env s).1, (serializePacket env s).2.1) := by
  rcases serializePacket_cases env s hbuf with ⟨h1, _⟩ | ⟨_, h2, h3⟩
  · rw [hfail] at h1
    cases h1
  · refine ⟨h2, ?_, ?_, ?_⟩
    · rw [h3]
      rfl
    · rw [h3]
      rfl
    · simp [flushCurrentPacket, hpending, hfail]

/-- C1 witness: serializing an open packet with an encrypter that has no key
fails after the header is built; the queue is cleared, exactly one
failed-to-serialize error is reported, and nothing is emitted. -/
theorem serialize_c1_failure_witness :
    openPacketState.encryptedBuffer = false ∧
    (serializePacket envNoKeys openPacketState).2.2 = false ∧
    ¬(openPacketState.queuedFrames = [] ∧ openPacketState.pendingPaddingBytes = 0) ∧
    ((serializePacket envNoKeys openPacketState).1.queuedFrames = [] ∧
      (serializePacket envNoKeys openPacketState).2.1.countP isFailedToSerializeEvent = 1 ∧
      (serializePacket envNoKeys openPacketState).2.1.countP isPacketEmissionEvent = 0 ∧
      flushCurrentPacket envNoKeys openPacketState =
        ((serializePacket envNoKeys openPacketState).1,
          (serializePacket envNoKeys openPacketState).2.1)) :=
  ⟨rfl, by decide, by decide,
    serialize_c1_failure envNoKeys openPacketState rfl (by decide) (by decide)⟩

/-- C2 counterexample: for the IETF TLS version — header protection and a
16-byte AEAD tag — `MinPlaintextPacketSize` returns 7, not the 3 the claim
prescribes for 16-byte-tag versions. -/
theorem minPlaintext_c2_counterexample :
    tlsVersion.hasHeaderProtection = true ∧ aeadTagBytes tlsVersion = 16 ∧
    minPlaintextPacketSize tlsVersion ≠ spec_minPlaintextPacketSize tlsVersion := by
  decide

/-- C2 (amended): `MinPlaintextPacketSize` returns 0 for versions without
header protection and 7 for every version with header protection regardless of
AEAD tag size; 7 always covers the header-protection sampling requirement of
`19 − tag` plaintext bytes for both 12- and 16-byte tags. -/
theorem minPlaintext_c2_amended (v : ParsedQuicVersion) :
    minPlaintextPacketSize v = (if v.hasHeaderProtection then 7 else 0) ∧
    (v.hasHeaderProtection = true →
      minSamplingPlaintext v ≤ minPlaintextPacketSize v) := by
  constructor
  · cases h : v.hasHeaderProtection <;> simp [minPlaintextPacketSize, h]
  · intro h
    cases hp : v.handshakeProtocol <;>
      simp [minPlaintextPacketSize, minSamplingPlaintext, aeadTagBytes, h, hp]

/-- C2 amended witness: the TLS version instantiation. -/
theorem minPlaintext_c2_amended_witness :
    tlsVersion.hasHeaderProtection = true ∧
    minPlaintextPacketSize tlsVersion = (if tlsVersion.hasHeaderProtection then 7 else 0) ∧
    minSamplingPlaintext tlsVersion ≤ minPlaintextPacketSize tlsVersion :=
  ⟨rfl, (minPlaintext_c2_amended tlsVersion).1, (minPlaintext_c2_amended tlsVersion).2 rfl⟩

/-- C9: `SetMaxDatagramFrameSize` stores `min(value, 2^16 − 1)` — the largest
value representable in both `QuicPacketLength` and `size_t` — so the stored
bound always fits in a `QuicPacketLength`. -/
theorem setMaxDatagramFrameSize_clamps (s : CreatorState) (v : Nat) :
    (setMaxDatagramFrameSize s v).maxDatagramFrameSize = min v (2 ^ 16 - 1) ∧
    (setMaxDatagramFrameSize s v).maxDatagramFrameSize ≤ 2 ^ 16 - 1 := by
  have h : (2 : Nat) ^ 16 - 1 = 65535 := by norm_num
  have h64 : min ((2 : Nat) ^ 16 - 1) (2 ^ 64 - 1) = 65535 := by norm_num
  simp only [setMaxDatagramFrameSize, h, h64]
  constructor
  · split <;> omega
  · split <;> omega

/-- C10: `SkipNPacketNumbers` with no frames queued: when adding `count` would
wrap the uint64 packet number around (`packet_number > packet_number + count`)
the call leaves the state unchanged; otherwise the packet number advances by
exactly `count`. -/
theorem skipNPacketNumbers_spec (s : CreatorState) (pn count : Nat)
    (hq : s.queuedFrames = []) (hpn : s.packetNumber = some pn)
    (hpn64 : pn < 2 ^ 64) (hcount : count < 2 ^ 64) :
    ((pn + count) % 2 ^ 64 < pn → skipNPacketNumbers s count = s) ∧
    (¬ (pn + count) % 2 ^ 64 < pn →
      skipNPacketNumbers s count = { s with packetNumber := some (pn + count) }) := by
  obtain ⟨qf, rf, nf, ps, pnum, el, mpl, mps, lh, pp, nfp, ha, hsw, hch, haf, hm,
    la, ttt, ntt, eb, elen, ft, md⟩ := s
  simp only at hq hpn
  subst hq
  subst hpn
  have h64 : (2 : Nat) ^ 64 = 18446744073709551616 := by norm_num
  rw [h64] at hpn64 hcount
  constructor
  · intro h
    rw [h64] at h
    simp [skipNPacketNumbers, h]
  · intro h
    rw [h64] at h
    have hmod : (pn + count) % 18446744073709551616 = pn + count := by omega
    simp [skipNPacketNumbers, h, hmod]

/-- C10 witness: skipping 3 packet numbers from packet number 5. -/
theorem skipNPacketNumbers_spec_witness :
    openPacketState.queuedFrames ≠ [] ∧
    ({ openPacketState with queuedFrames := [] }).queuedFrames = [] ∧
    skipNPacketNumbers { openPacketState with queuedFrames := [] } 3 =
      { openPacketState with queuedFrames := [], packetNumber := some 8 } := by
  refine ⟨by decide, rfl, ?_⟩
  have h := (skipNPacketNumbers_spec { openPacketState with queuedFrames := [] } 5 3
    rfl rfl (by norm_num) (by norm_num)).2 (by norm_num)
  simpa using h

/-- C8: `FlushCurrentPacket` with nothing queued and no pending padding is a
no-op: no delegate call is made and the creator state is unchanged. -/
theorem flushCurrentPacket_noop (env : Env) (s : CreatorState)
    (hq : s.queuedFrames = []) (hp : s.pendingPaddingBytes = 0) :
    flushCurrentPacket env s = (s, []) := by
  simp [flushCurrentPacket, hq, hp]

/-- C8 witness: flushing the freshly constructed creator. -/
theorem flushCurrentPacket_noop_witness :
    baseState.queuedFrames = [] ∧ baseState.pendingPaddingBytes = 0 ∧
    flushCurrentPacket envG baseState = (baseState, []) :=
  ⟨rfl, rfl, flushCurrentPacket_noop envG baseState rfl rfl⟩

/-- C3 counterexample: at the INITIAL level, a STREAM frame on the crypto
stream (stream 1 of a Google QUIC version) is not refused: `AddFrame` returns
true, the frame is queued, and no unrecoverable error is reported — so a
STREAM frame can be present in `queued_frames_` while the level is INITIAL. -/
theorem addFrame_c3_counterexample :
    initialLevelState.encryptionLevel = EncryptionLevel.initial ∧
    (addFrame envG initialLevelState (QuicFrame.stream 1 0 5 false)
        TransmissionType.notRetransmission).2.2 = true ∧
    (addFrame envG initialLevelState (QuicFrame.stream 1 0 5 false)
        TransmissionType.notRetransmission).2.1 = [] ∧
    (addFrame envG initialLevelState (QuicFrame.stream 1 0 5 false)
        TransmissionType.notRetransmission).1.queuedFrames =
      [QuicFrame.stream 1 0 5 false] := by
  decide

/-- C3 (amended): for every `AddFrame` call with a STREAM frame of a
non-crypto stream while the level is INITIAL or HANDSHAKE, the frame is
refused — `AddFrame` returns false, the state (hence `queued_frames_`) is
unchanged, and the delegate sees exactly one
`ATTEMPT_TO_SEND_UNENCRYPTED_STREAM_DATA` unrecoverable error; crypto-stream
STREAM frames are exempt. -/
theorem addFrame_c3_amended (env : Env) (s : CreatorState)
    (sid off len : Nat) (fin : Bool) (tt : TransmissionType)
    (hsid : isCryptoStreamId env.version sid = false)
    (hlvl : s.encryptionLevel = EncryptionLevel.initial ∨
      s.encryptionLevel = EncryptionLevel.handshake) :
    addFrame env s (QuicFrame.stream sid off len fin) tt =
      (s, [Event.onUnrecoverableError QuicErrorCode.attemptToSendUnencryptedStreamData],
        false) := by
  have hguard : (isNonCryptoStreamFrame env.version (QuicFrame.stream sid off len fin) &&
      attemptingToSendUnencryptedStreamData s) = true := by
    rcases hlvl with h | h <;>
      simp [isNonCryptoStreamFrame, attemptingToSendUnencryptedStreamData, hsid, h]
  simp [addFrame, addFrameInner, hguard]

/-- C3 amended witness: a non-crypto stream frame at the INITIAL level. -/
theorem addFrame_c3_amended_witness :
    isCryptoStreamId envG.version 4 = false ∧
    initialLevelState.encryptionLevel = EncryptionLevel.initial ∧
    addFrame envG initialLevelState (QuicFrame.stream 4 0 5 false)
        TransmissionType.notRetransmission =
      (initialLevelState,
        [Event.onUnrecoverableError QuicErrorCode.attemptToSendUnencryptedStreamData],
        false) :=
  ⟨by decide, rfl,
    addFrame_c3_amended envG initialLevelState 4 0 5 false
      TransmissionType.notRetransmission (by decide) (Or.inl rfl)⟩

/-- C4: two stream frames submitted back to back into an empty packet, the
second contiguous with the first (same stream, offset equal to the first's
offset plus length) and fitting in `BytesFree()`, coalesce: the result is
exactly one queued stream frame whose data length is the sum of the two
lengths and whose fin flag is the second frame's, no delegate call is made,
and `packet_size_` grows by exactly the second frame's data length. -/
theorem addFrame_c4_coalesce (env : Env) (s : CreatorState)
    (sid off len1 len2 : Nat) (fin1 fin2 : Bool) (tt : TransmissionType)
    (hq : s.queuedFrames = []) (hr : s.retransmittableFrames = [])
    (hlvl : s.encryptionLevel = EncryptionLevel.zeroRtt ∨
      s.encryptionLevel = EncryptionLevel.forwardSecure)
    (hL1 : getSerializedFrameLength env s (QuicFrame.stream sid off len1 fin1) ≠ 0)
    (hfit : len2 ≤ bytesFree env
      (addFrame env s (QuicFrame.stream sid off len1 fin1) tt).1) :
    (addFrame env (addFrame env s (QuicFrame.stream sid off len1 fin1) tt).1
        (QuicFrame.stream sid (off + len1) len2 fin2) tt).2.2 = true ∧
    (addFrame env (addFrame env s (QuicFrame.stream sid off len1 fin1) tt).1
        (QuicFrame.stream sid (off + len1) len2 fin2) tt).2.1 = [] ∧
    (addFrame env (addFrame env s (QuicFrame.stream sid off len1 fin1) tt).1
        (QuicFrame.stream sid (off + len1) len2 fin2) tt).1.queuedFrames =
      [QuicFrame.stream sid off (len1 + len2) fin2] ∧
    (addFrame env (addFrame env s (QuicFrame.stream sid off len1 fin1) tt).1
        (QuicFrame.stream sid (off + len1) len2 fin2) tt).1.retransmittableFrames =
      [QuicFrame.stream sid off (len1 + len2) fin2] ∧
    (addFrame env (addFrame env s (QuicFrame.stream sid off len1 fin1) tt).1
        (QuicFrame.stream sid (off + len1) len2 fin2) tt).1.packetSize =
      (addFrame env s (QuicFrame.stream sid off len1 fin1) tt).1.packetSize + len2 := by
  have hatt : attemptingToSendUnencryptedStreamData s = false := by
    rcases hlvl with h | h <;> simp [attemptingToSendUnencryptedStreamData, h]
  have h1 : addFrame env s (QuicFrame.stream sid off len1 fin1) tt =
      ({ s with
          queuedFrames := [QuicFrame.stream sid off len1 fin1],
          retransmittableFrames := [QuicFrame.stream sid off len1 fin1],
          packetSize := headerSize env s +
            getSerializedFrameLength env s (QuicFrame.stream sid off len1 fin1),
          hasCryptoHandshake := s.hasCryptoHandshake ||
            isHandshakeFrame env.version (QuicFrame.stream sid off len1 fin1),
          transmissionType := tt }, [], true) := by
    simp [addFrame, addFrameInner, addFrameBody, hatt, tryCoalesce,
      maybeCoalesceStreamFrame, hq, hr, hL1, expansionOnNewFrame,
      isRetransmittableFrame, headerSize]
  rw [h1] at hfit ⊢
  have hatt2 : attemptingToSendUnencryptedStreamData
      ({ s with
          queuedFrames := [QuicFrame.stream sid off len1 fin1],
          retransmittableFrames := [QuicFrame.stream sid off len1 fin1],
          packetSize := headerSize env s +
            getSerializedFrameLength env s (QuicFrame.stream sid off len1 fin1),
          hasCryptoHandshake := s.hasCryptoHandshake ||
            isHandshakeFrame env.version (QuicFrame.stream sid off len1 fin1),
          transmissionType := tt } : CreatorState) = false := by
    rcases hlvl with h | h <;> simp [attemptingToSendUnencryptedStreamData, h]
  simp [addFrame, addFrameInner, addFrameBody, hatt2, tryCoalesce,
    maybeCoalesceStreamFrame, hfit, coalesceBack]

/-- C4 witness: "Hello…" bytes 0–9 then bytes 10–29 with fin, coalescing into
one 30-byte frame. -/
theorem addFrame_c4_coalesce_witness :
    baseState.queuedFrames = [] ∧
    getSerializedFrameLength envG baseState (QuicFrame.stream 4 0 10 false) ≠ 0 ∧
    20 ≤ bytesFree envG
      (addFrame envG baseState (QuicFrame.stream 4 0 10 false)
        TransmissionType.notRetransmission).1 ∧
    (addFrame envG (addFrame envG baseState (QuicFrame.stream 4 0 10 false)
          TransmissionType.notRetransmission).1
        (QuicFrame.stream 4 (0 + 10) 20 true) TransmissionType.notRetransmission).2.2 =
      true ∧
    (addFrame envG (addFrame envG baseState (QuicFrame.stream 4 0 10 false)
          TransmissionType.notRetransmission).1
        (QuicFrame.stream 4 (0 + 10) 20 true) TransmissionType.notRetransmission).1.queuedFrames =
      [QuicFrame.stream 4 0 (10 + 20) true] ∧
    (addFrame envG (addFrame envG baseState (QuicFrame.stream 4 0 10 false)
          TransmissionType.notRetransmission).1
        (QuicFrame.stream 4 (0 + 10) 20 true) TransmissionType.notRetransmission).1.packetSize =
      (addFrame envG baseState (QuicFrame.stream 4 0 10 false)
        TransmissionType.notRetransmission).1.packetSize + 20 := by
  have h := addFrame_c4_coalesce envG baseState 4 0 10 20 false true
    TransmissionType.notRetransmission rfl rfl (Or.inr rfl) (by decide) (by decide)
  exact ⟨rfl, by decide, by decide, h.1, h.2.2.1, h.2.2.2.2⟩

/-- `SkipNPacketNumbers` never decreases the packet number: it either leaves
it unchanged or advances an initialized number. -/
theorem skipNPacketNumbers_mono (s : CreatorState) (n : Nat) :
    (skipNPacketNumbers s n).packetNumber = s.packetNumber ∨
    ∃ pn m, s.packetNumber = some pn ∧
      (skipNPacketNumbers s n).packetNumber = some m ∧ pn ≤ m := by
  unfold skipNPacketNumbers
  split
  · left
    rfl
  · cases hpn : s.packetNumber with
    | none =>
      left
      simp [hpn]
    | some pn =>
      have h64 : (2 : Nat) ^ 64 = 18446744073709551616 := by norm_num
      by_cases h : (pn + n) % 18446744073709551616 < pn
      · left
        simp [hpn, h64, h]
      · right
        refine ⟨pn, (pn + n) % 2 ^ 64, rfl, ?_, ?_⟩
        · simp [hpn, h64, h]
        · rw [h64]
          omega

/-- Invariant of packet-number traces: if the accumulated emissions are
strictly increasing and bounded by the current packet number, they stay
strictly increasing through any further fills and skips. -/
theorem runPacketNumberOps_aux (env : Env) :
    ∀ (ops : List PacketNumberOp) (s : CreatorState) (acc : List Nat),
      List.Pairwise (· < ·) acc →
      (∀ a ∈ acc, ∀ n, s.packetNumber = some n → a ≤ n) →
      (s.packetNumber = none → acc = []) →
      List.Pairwise (· < ·) (runPacketNumberOps env ops s acc).1 := by
  intro ops
  induction ops with
  | nil =>
    intro s acc hp _ _
    simpa [runPacketNumberOps] using hp
  | cons op rest ih =>
    intro s acc hp hb hn
    cases op with
    | fill =>
      rw [runPacketNumberOps]
      have hlt : ∀ a ∈ acc, a < nextSendingPacketNumber env s := by
        intro a ha
        cases hpn : s.packetNumber with
        | none => simp [hn hpn] at ha
        | some n =>
          have := hb a ha n hpn
          simp only [nextSendingPacketNumber, hpn]
          omega
      have hgetD : (fillPacketHeader env s).packetNumber.getD 0 =
          nextSendingPacketNumber env s := rfl
      apply ih
      · rw [hgetD]
        rw [List.pairwise_append]
        refine ⟨hp, List.pairwise_singleton _ _, ?_⟩
        intro a ha b hbm
        rw [List.mem_singleton] at hbm
        subst hbm
        exact hlt a ha
      · intro a ha m hm
        have hm' : m = nextSendingPacketNumber env s := by
          have : (fillPacketHeader env s).packetNumber =
              some (nextSendingPacketNumber env s) := rfl
          rw [this] at hm
          exact (Option.some_inj.mp hm).symm
        subst hm'
        rw [hgetD] at ha
        rcases List.mem_append.mp ha with h | h
        · exact le_of_lt (hlt a h)
        · rw [List.mem_singleton] at h
          subst h
          exact le_refl _
      · intro h
        have : (fillPacketHeader env s).packetNumber =
            some (nextSendingPacketNumber env s) := rfl
        rw [this] at h
        cases h
    | skip n =>
      rw [runPacketNumberOps]
      apply ih
      · exact hp
      · rcases skipNPacketNumbers_mono s n with h | ⟨pn, m, hspn, hs'pn, hle⟩
        · intro a ha k hk
          rw [h] at hk
          exact hb a ha k hk
        · intro a ha k hk
          rw [hs'pn] at hk
          have hk' : k = m := Option.some_inj.mp hk.symm
          subst hk'
          exact le_trans (hb a ha pn hspn) hle
      · rcases skipNPacketNumbers_mono s n with h | ⟨pn, m, hspn, hs'pn, hle⟩
        · intro hh
          rw [h] at hh
          exact hn hh
        · intro hh
          rw [hs'pn] at hh
          cases hh

/-- C5: over any trace of header fills (`FillPacketHeader`, one per
serialization, assigning `NextSendingPacketNumber`) interleaved with
`SkipNPacketNumbers` calls, the assigned packet numbers are strictly
monotonically increasing — skips may leave gaps but no number is repeated or
decreased; and `ReserializeInitialPacketInCoalescedPacket` restores the
creator's packet number on exit (its scoped context switcher makes the inner
fill re-assign the original packet's own number), so reserialization never
disturbs the sequence. -/
theorem packetNumbers_c5_monotone :
    (∀ (env : Env) (ops : List PacketNumberOp) (s : CreatorState),
      List.Pairwise (· < ·) (runPacketNumberOps env ops s []).1) ∧
    (∀ (env : Env) (s : CreatorState) (pkt : SerializedPacketInfo)
        (paddingSize : Nat) (tt : TransmissionType),
      (reserializeInitialPacketInCoalescedPacket env s pkt paddingSize tt).1.packetNumber =
        s.packetNumber) := by
  constructor
  · intro env ops s
    exact runPacketNumberOps_aux env ops s [] List.Pairwise.nil
      (by intro a ha; cases ha) (fun _ => rfl)
  · intro env s pkt paddingSize tt
    rfl

/-- C6 counterexample: with an open packet that has no room for the RST_STREAM
frame and a delegate that declines every packet, the call does return false —
but only after flushing (emitting) the current packet: the claim's "returns
false without flushing the current packet" fails. -/
theorem consumeControl_c6_counterexample :
    (∀ free first,
      envDeclineControl.framerSerializedFrameLength QuicFrame.rstStream free first = 0) ∧
    (∀ a b, envDeclineControl.shouldGeneratePacket a b = false) ∧
    QuicFrame.rstStream ≠ QuicFrame.ping ∧
    QuicFrame.rstStream ≠ QuicFrame.connectionClose ∧
    openPacketState.queuedFrames ≠ [] ∧
    (consumeRetransmittableControlFrame envDeclineControl openPacketState
      QuicFrame.rstStream).2.2 = false ∧
    (consumeRetransmittableControlFrame envDeclineControl openPacketState
      QuicFrame.rstStream).2.1.countP isPacketEmissionEvent = 1 :=
  ⟨fun _ _ => rfl, fun _ _ => rfl, by decide, by decide, by decide, by decide, by decide⟩

/-- C6 (amended): when the open packet has no room for the retransmittable
control frame, the failed add attempt first flushes the current packet —
emitting it to the delegate — and then, since the frame is neither PING nor
CONNECTION_CLOSE and the delegate declines to start a new packet, the call
returns false with the frame not queued (PING and CONNECTION_CLOSE skip the
delegate check and are added anyway). -/
theorem consumeControl_c6_amended (env : Env) (s : CreatorState) (frame : QuicFrame)
    (hf : frame = QuicFrame.rstStream ∨ frame = QuicFrame.windowUpdate)
    (hq : s.queuedFrames ≠ [])
    (hack : s.hasAck = true)
    (hnoroom : ∀ free first, env.framerSerializedFrameLength frame free first = 0)
    (hdecline : ∀ a b, env.shouldGeneratePacket a b = false)
    (hbuf : s.encryptedBuffer = false)
    (hnfp : s.needsFullPadding = false) (hpend : s.pendingPaddingBytes = 0)
    (hhp : env.version.hasHeaderProtection = false)
    (htt : s.transmissionType ≠ TransmissionType.probingRetransmission)
    (hfate : env.getSerializedPacketFate (s.queuedFrames.contains QuicFrame.mtuDiscovery)
      s.encryptionLevel = SerializedPacketFate.sendToWriter)
    (henc : env.hasEncrypterOfEncryptionLevel s.encryptionLevel = true)
    (hbuild : env.buildDataPacket s.queuedFrames s.packetSize s.encryptionLevel ≠ 0)
    (hencres : env.encryptInPlace s.encryptionLevel (nextSendingPacketNumber env s)
      (env.buildDataPacket s.queuedFrames s.packetSize s.encryptionLevel) ≠ 0)
    (hlatch : s.latchedHardMaxPacketLength = 0) :
    (consumeRetransmittableControlFrame env s frame).2.2 = false ∧
    (consumeRetransmittableControlFrame env s frame).2.1 =
      [Event.onSerializedPacket
        { packetNumber := nextSendingPacketNumber env s,
          encryptionLevel := s.encryptionLevel,
          retransmittableFrames := s.retransmittableFrames,
          nonretransmittableFrames := s.nonretransmittableFrames,
          encryptedLength := env.encryptInPlace s.encryptionLevel
            (nextSendingPacketNumber env s)
            (env.buildDataPacket s.queuedFrames s.packetSize s.encryptionLevel) }] ∧
    (consumeRetransmittableControlFrame env s frame).1.queuedFrames = [] := by
  have hlen : getSerializedFrameLength env s frame = 0 := by
    unfold getSerializedFrameLength
    simp [hnoroom]
  have hco : tryCoalesce env s frame = none := by
    rcases hf with hf | hf <;> subst hf <;> rfl
  have hg : isNonCryptoStreamFrame env.version frame = false := by
    rcases hf with hf | hf <;> subst hf <;> rfl
  have hadd := addFrame_noRoom env s frame s.nextTransmissionType hg hco hlen hlatch
  have hflush := flushCurrentPacket_success_noPadding env s hq hbuf hnfp hpend hhp htt
    hfate henc hbuild hencres hlatch
  unfold consumeRetransmittableControlFrame maybeBundleAckOpportunistically
  rw [if_pos hack]
  rcases hf with hf | hf <;> subst hf <;>
    simp [hq, hadd, hflush, hdecline]

/-- C6 amended witness: the declining-delegate fixture. -/
theorem consumeControl_c6_amended_witness :
    openPacketState.queuedFrames ≠ [] ∧
    (∀ a b, envDeclineControl.shouldGeneratePacket a b = false) ∧
    ((consumeRetransmittableControlFrame envDeclineControl openPacketState
        QuicFrame.rstStream).2.2 = false ∧
      (consumeRetransmittableControlFrame envDeclineControl openPacketState
          QuicFrame.rstStream).2.1 =
        [Event.onSerializedPacket
          { packetNumber := nextSendingPacketNumber envDeclineControl openPacketState,
            encryptionLevel := openPacketState.encryptionLevel,
            retransmittableFrames := openPacketState.retransmittableFrames,
            nonretransmittableFrames := openPacketState.nonretransmittableFrames,
            encryptedLength := envDeclineControl.encryptInPlace
              openPacketState.encryptionLevel
              (nextSendingPacketNumber envDeclineControl openPacketState)
              (envDeclineControl.buildDataPacket openPacketState.queuedFrames
                openPacketState.packetSize openPacketState.encryptionLevel) }] ∧
      (consumeRetransmittableControlFrame envDeclineControl openPacketState
        QuicFrame.rstStream).1.queuedFrames = []) :=
  ⟨by decide, fun _ _ => rfl,
    consumeControl_c6_amended envDeclineControl openPacketState QuicFrame.rstStream
      (Or.inl rfl) (by decide) rfl (fun _ _ => rfl) (fun _ _ => rfl) rfl rfl rfl rfl
      (by decide) rfl rfl (by decide) (by decide) rfl⟩


/-- C7: `GenerateMtuDiscoveryPacket(target_mtu)` called with no frames queued
temporarily sets the max packet length to `target_mtu` and flushes exactly one
packet consisting of a single MTU-discovery frame followed by a full padding
frame: the padding frame's length is exactly the free space remaining in the
target-MTU plaintext budget after the MTU frame, so the plaintext handed to
the builder and encrypter is exactly `getMaxPlaintextSize target_mtu` — the
probe is built at the target MTU and fully padded.  On return
`max_packet_length()` equals its value before the call; called with frames
queued, the call changes nothing and emits nothing. -/
theorem generateMtu_c7 (env : Env) (s : CreatorState) (target : Nat) (L : Nat)
    (hq : s.queuedFrames = [])
    (hre : s.retransmittableFrames = [])
    (hnr : s.nonretransmittableFrames = [])
    (hbuf : s.encryptedBuffer = false)
    (hpend : s.pendingPaddingBytes = 0)
    (hlatch : s.latchedHardMaxPacketLength = 0)
    (htt : s.transmissionType ≠ TransmissionType.probingRetransmission)
    (hcons : s.maxPlaintextSize = env.getMaxPlaintextSize s.maxPacketLength)
    (hhp : env.version.hasHeaderProtection = false)
    (hfate : ∀ b l, env.getSerializedPacketFate b l = SerializedPacketFate.sendToWriter)
    (henc : ∀ l, env.hasEncrypterOfEncryptionLevel l = true)
    (hL : ∀ free first, env.framerSerializedFrameLength QuicFrame.mtuDiscovery free first = L)
    (hLpos : L ≠ 0)
    (hPad : ∀ free first,
      env.framerSerializedFrameLength (QuicFrame.padding (-1)) free first = free)
    (hroom : env.packetHeaderSize s.encryptionLevel + L < env.getMaxPlaintextSize target)
    (hbuild : ∀ fr n l, env.buildDataPacket fr n l ≠ 0)
    (hencR : ∀ l pn n, env.encryptInPlace l pn n ≠ 0) :
    (generateMtuDiscoveryPacket env s target).1.maxPacketLength = s.maxPacketLength ∧
    (generateMtuDiscoveryPacket env s target).1.queuedFrames = [] ∧
    (generateMtuDiscoveryPacket env s target).2 =
      [Event.onSerializedPacket
        { packetNumber := nextSendingPacketNumber env s,
          encryptionLevel := s.encryptionLevel,
          retransmittableFrames := [],
          nonretransmittableFrames :=
            [QuicFrame.mtuDiscovery,
              QuicFrame.padding (Int.ofNat (env.getMaxPlaintextSize target -
                (env.packetHeaderSize s.encryptionLevel + L)))],
          encryptedLength := env.encryptInPlace s.encryptionLevel
            (nextSendingPacketNumber env s)
            (env.buildDataPacket
              [QuicFrame.mtuDiscovery, QuicFrame.padding (-1)]
              (env.getMaxPlaintextSize target) s.encryptionLevel) }] ∧
    (∀ s2 : CreatorState, s2.queuedFrames ≠ [] →
      generateMtuDiscoveryPacket env s2 target = (s2, [])) := by
  have hminr : min (env.getMaxPlaintextSize target)
      (env.packetHeaderSize s.encryptionLevel + L) =
      env.packetHeaderSize s.encryptionLevel + L := min_eq_right (le_of_lt hroom)
  have hPpos : env.getMaxPlaintextSize target -
      (env.packetHeaderSize s.encryptionLevel + L) ≠ 0 := by omega
  have hfull : env.packetHeaderSize s.encryptionLevel + L +
      (env.getMaxPlaintextSize target - (env.packetHeaderSize s.encryptionLevel + L)) =
      env.getMaxPlaintextSize target := by omega
  refine ⟨?_, ?_, ?_, ?_⟩
  · simp [generateMtuDiscoveryPacket, setMaxPacketLength_fields, hcons, hq,
      addPaddedSavedFrame, addFrame, addFrameInner, addFrameBody, tryCoalesce,
      getSerializedFrameLength, bytesFree, packetSizeOf, expansionOnNewFrame,
      expansionOnNewFrameWithLastFrame, headerSize, isNonCryptoStreamFrame,
      isRetransmittableFrame, hL, hLpos, hhp, hnr, flushCurrentPacket, serializePacket,
      fillPacketHeader, maybeAddPadding, maybeAddExtraPaddingForHeaderProtection,
      onSerializedPacketStep, clearPacket, removeSoftMaxPacketLength,
      hPad, hfate, henc, hbuild, hencR, htt, hre, hlatch, hbuf, hminr, hPpos,
      nextSendingPacketNumber]
  · simp [generateMtuDiscoveryPacket, setMaxPacketLength_fields, hcons, hq,
      addPaddedSavedFrame, addFrame, addFrameInner, addFrameBody, tryCoalesce,
      getSerializedFrameLength, bytesFree, packetSizeOf, expansionOnNewFrame,
      expansionOnNewFrameWithLastFrame, headerSize, isNonCryptoStreamFrame,
      isRetransmittableFrame, hL, hLpos, hhp, hnr, flushCurrentPacket, serializePacket,
      fillPacketHeader, maybeAddPadding, maybeAddExtraPaddingForHeaderProtection,
      onSerializedPacketStep, clearPacket, removeSoftMaxPacketLength,
      hPad, hfate, henc, hbuild, hencR, htt, hre, hlatch, hbuf, hminr, hPpos,
      nextSendingPacketNumber]
  · simp [generateMtuDiscoveryPacket, setMaxPacketLength_fields, hcons, hq,
      addPaddedSavedFrame, addFrame, addFrameInner, addFrameBody, tryCoalesce,
      getSerializedFrameLength, bytesFree, packetSizeOf, expansionOnNewFrame,
      expansionOnNewFrameWithLastFrame, headerSize, isNonCryptoStreamFrame,
      isRetransmittableFrame, hL, hLpos, hhp, hnr, flushCurrentPacket, serializePacket,
      fillPacketHeader, maybeAddPadding, maybeAddExtraPaddingForHeaderProtection,
      onSerializedPacketStep, clearPacket, removeSoftMaxPacketLength,
      hPad, hfate, henc, hbuild, hencR, htt, hre, hlatch, hbuf, hminr, hPpos, hfull,
      nextSendingPacketNumber]
  · intro s2 h
    unfold generateMtuDiscoveryPacket
    rw [if_pos h]

/-- C7 witness: probing from 1350 to a 1500-byte MTU with the MTU fixture. -/
theorem generateMtu_c7_witness :
    baseState.queuedFrames = [] ∧
    envMtu.packetHeaderSize baseState.encryptionLevel + 1 <
      envMtu.getMaxPlaintextSize 1500 ∧
    ((generateMtuDiscoveryPacket envMtu baseState 1500).1.maxPacketLength =
        baseState.maxPacketLength ∧
      (generateMtuDiscoveryPacket envMtu baseState 1500).1.queuedFrames = [] ∧
      (generateMtuDiscoveryPacket envMtu baseState 1500).2 =
        [Event.onSerializedPacket
          { packetNumber := nextSendingPacketNumber envMtu baseState,
            encryptionLevel := baseState.encryptionLevel,
            retransmittableFrames := [],
            nonretransmittableFrames :=
              [QuicFrame.mtuDiscovery,
                QuicFrame.padding (Int.ofNat (envMtu.getMaxPlaintextSize 1500 -
                  (envMtu.packetHeaderSize baseState.encryptionLevel + 1)))],
            encryptedLength := envMtu.encryptInPlace baseState.encryptionLevel
              (nextSendingPacketNumber envMtu baseState)
              (envMtu.buildDataPacket
                [QuicFrame.mtuDiscovery, QuicFrame.padding (-1)]
                (envMtu.getMaxPlaintextSize 1500) baseState.encryptionLevel) }] ∧
      (∀ s2 : CreatorState, s2.queuedFrames ≠ [] →
        generateMtuDiscoveryPacket envMtu s2 1500 = (s2, []))) :=
  ⟨rfl, by decide,
    generateMtu_c7 envMtu baseState 1500 1 rfl rfl rfl rfl rfl rfl (by decide) rfl rfl
      (fun _ _ => rfl) (fun _ => rfl) (fun _ _ => rfl) (by decide) (fun _ _ => rfl)
      (by decide) (fun fr n l => by show n + 1 ≠ 0; omega)
      (fun l pn n => by show n + 12 ≠ 0; omega)⟩


end QuichePacketCreator
